import Mathlib

/-!
Shallow embedding of the row-context classification and search engine of
`src/app/page.tsx` (`handleSearch`, `toggleSelection`, `toggleSelectAll`,
`clearSelection`, `generatePDF`).

Cells are modelled by an inductive type covering the JavaScript values that
`XLSX.utils.sheet_to_json(sheet, { header: 1, defval: null })` produces:
strings, numbers (integral here) and `null`.  JavaScript string operations
(`trim`, `toUpperCase`, `toLowerCase`, `includes`, `replace` with the
concrete regular expressions of the source, `split(/\s{2,}/)`) are embedded
as executable functions on `List Char`.
-/

/-- A spreadsheet cell value: `string | number | null` (absent cells read
through `defval: null` are `null`). -/
inductive Cell where
  | str (s : String)
  | num (n : Int)
  | null
deriving DecidableEq, Repr

/-- JavaScript truthiness test specialised to cell values:
`null`, `""` and `0` are falsy. -/
def cellFalsy : Cell → Bool
  | Cell.null => true
  | Cell.str s => s = ""
  | Cell.num n => n = 0

/-- JavaScript `.toString()` on a (truthy) cell value; integral numbers print
in decimal exactly as in JavaScript. -/
def cellToString : Cell → String
  | Cell.str s => s
  | Cell.num n => toString n
  | Cell.null => "null"

/-- `row[i]` with absent positions reading as `null`
(JS `undefined` and `null` are both falsy and both blank). -/
def cellAt (row : List Cell) (i : Nat) : Cell := row.getD i Cell.null

/-- The whitespace class `\s` of the source's regular expressions
(restricted to the ASCII whitespace characters). -/
def isWS (c : Char) : Bool :=
  c = ' ' || c = '\t' || c = '\n' || c = '\r' || c = '\x0b' || c = '\x0c'

/-- `[A-Z]` of the source's regular expressions (ASCII only). -/
def isUpperAZ (c : Char) : Bool := decide ('A' ≤ c ∧ c ≤ 'Z')

/-- Character uppercasing as JavaScript `toUpperCase` acts on the characters
occurring in this data (ASCII letters plus Spanish letters). -/
def upChar (c : Char) : Char :=
  if c = 'ñ' then 'Ñ'
  else if c = 'á' then 'Á'
  else if c = 'é' then 'É'
  else if c = 'í' then 'Í'
  else if c = 'ó' then 'Ó'
  else if c = 'ú' then 'Ú'
  else if c = 'ü' then 'Ü'
  else c.toUpper

/-- Character lowercasing as JavaScript `toLowerCase` acts on the characters
occurring in this data. -/
def downChar (c : Char) : Char :=
  if c = 'Ñ' then 'ñ'
  else if c = 'Á' then 'á'
  else if c = 'É' then 'é'
  else if c = 'Í' then 'í'
  else if c = 'Ó' then 'ó'
  else if c = 'Ú' then 'ú'
  else if c = 'Ü' then 'ü'
  else c.toLower

/-- JavaScript `s.toUpperCase()`. -/
def jsUpper (s : String) : String := ⟨s.data.map upChar⟩

/-- JavaScript `s.toLowerCase()`. -/
def jsLower (s : String) : String := ⟨s.data.map downChar⟩

/-- JavaScript `s.trim()`. -/
def jsTrim (s : String) : String :=
  ⟨((s.data.dropWhile isWS).reverse.dropWhile isWS).reverse⟩

/-- Is `pat` a prefix of `l`? (character-exact, as JS string search). -/
def isPre : List Char → List Char → Bool
  | [], _ => true
  | _ :: _, [] => false
  | a :: as, b :: bs => a = b && isPre as bs

/-- JavaScript `s.includes(pat)`: does `pat` occur as a contiguous substring? -/
def hasSub (pat : List Char) : List Char → Bool
  | [] => pat.isEmpty
  | c :: rest => isPre pat (c :: rest) || hasSub pat rest

/-- `replace(/\s+/g, '')`: delete every whitespace character. -/
def stripWS (l : List Char) : List Char := l.filter (fun c => !isWS c)

/-- `replace(/\s+/g, ' ')`: each maximal whitespace run becomes one space.
The boolean records whether the previous character was whitespace. -/
def collapseWSAux : Bool → List Char → List Char
  | _, [] => []
  | prevWS, c :: rest =>
    if isWS c then
      if prevWS then collapseWSAux true rest
      else ' ' :: collapseWSAux true rest
    else c :: collapseWSAux false rest

/-- `replace(/\s+/g, ' ')` on a character list. -/
def collapseWS (l : List Char) : List Char := collapseWSAux false l

/-- `raw.split(/\s{2,}/)`: split on maximal whitespace runs of length ≥ 2.
First argument: are we currently consuming a separator run; second: the
current chunk, reversed. -/
def splitWs2Aux : Bool → List Char → List Char → List (List Char)
  | true, _, [] => [[]]
  | true, acc, c :: rest =>
    if isWS c then splitWs2Aux true acc rest
    else splitWs2Aux false [c] rest
  | false, acc, [] => [acc.reverse]
  | false, acc, [c] => [(c :: acc).reverse]
  | false, acc, c :: d :: rest =>
    if isWS c && isWS d then acc.reverse :: splitWs2Aux true [] (d :: rest)
    else splitWs2Aux false (c :: acc) (d :: rest)

/-- `raw.split(/\s{2,}/)`. -/
def splitWs2 (l : List Char) : List (List Char) := splitWs2Aux false [] l

/-- Does the list contain a single uppercase letter surrounded by whitespace,
i.e. `/\s[A-Z]\s/.test(raw)`? -/
def hasSingleLetterWS : List Char → Bool
  | a :: b :: c :: rest =>
    (isWS a && isUpperAZ b && isWS c) || hasSingleLetterWS (b :: c :: rest)
  | _ => false

/-- The `(\s[A-Z])*` tail of `/^[A-Z](\s[A-Z])+$/`. -/
def singlePairs : List Char → Bool
  | [] => true
  | a :: b :: rest => isWS a && isUpperAZ b && singlePairs rest
  | _ :: [] => false

/-- `/^[A-Z](\s[A-Z])+$/.test(raw)`: one uppercase letter followed by one or
more (whitespace, uppercase letter) pairs, spanning the whole string. -/
def allSingleLetters : List Char → Bool
  | a :: b :: rest => isUpperAZ a && singlePairs (b :: rest)
  | _ => false

/-- `s.replace(new RegExp(word, 'g'), rep)` for a literal nonempty `word`:
replace leftmost non-overlapping occurrences, fuelled for structural
recursion (fuel = initial length suffices since every step consumes at
least one character of a nonempty pattern). -/
def replaceAllF (pat rep : List Char) : Nat → List Char → List Char
  | 0, l => l
  | _ + 1, [] => []
  | n + 1, c :: rest =>
    if isPre pat (c :: rest) then rep ++ replaceAllF pat rep n ((c :: rest).drop pat.length)
    else c :: replaceAllF pat rep n rest

/-- Global literal replacement, JS `String.prototype.replace` with `'g'`. -/
def replaceAll (pat rep l : List Char) : List Char := replaceAllF pat rep l.length l

/-- The court-header keyword chain of `isCourtHeader`
(`text.includes('CIRCUITO') || ...`), in source order. -/
def courtKeywords : List String :=
  ["CIRCUITO", "MUNICIPAL", "TRIBUNAL", "JUZGADO", "CONSEJO", "SUPREMA",
   "SALA", "FAMILIA", "LABORAL", "ADMINISTRATIVO", "PROMISCUO", "CIVIL",
   "PEQUEÑAS", "CAUSAS", "JUEZ", "DESPACHO", "PRIMERO", "SEGUNDO",
   "TERCERO", "CUARTO", "QUINTO", "SEXTO", "SEPTIMO", "OCTAVO", "NOVENO",
   "DECIMO"]

/-- `isCourtHeader`: does the normalized (uppercased, whitespace-stripped)
text contain some court keyword? -/
def isCourtHeaderText (t : List Char) : Bool :=
  courtKeywords.any (fun k => hasSub k.data t)

/-- The month names of the state-header check, in source order. -/
def monthKeywords : List String :=
  ["FEBRERO", "ENERO", "MARZO", "ABRIL", "MAYO", "JUNIO", "JULIO",
   "AGOSTO", "SEPTIEMBRE", "OCTUBRE", "NOVIEMBRE", "DICIEMBRE"]

/-- The state/date-header test:
`text.startsWith('ESTADO') || text.includes('FIJADO') || <month names>`,
applied to the uppercased-trimmed first cell. -/
def isStateText (t : List Char) : Bool :=
  isPre "ESTADO".data t || hasSub "FIJADO".data t ||
    monthKeywords.any (fun k => hasSub k.data t)

/-- The `KEYWORDS` array of the reconstructor, in source order. -/
def KEYWORDS : List String :=
  ["JUZGADO", "PROMISCUO", "MUNICIPAL", "CIRCUITO", "CIVIL", "FAMILIA",
   "LABORAL", "ADMINISTRATIVO", "TRIBUNAL", "SUPERIOR", "SALA", "PENAL",
   "PEQUEÑAS", "CAUSAS", "COMPETENCIA", "MULTIPLE", "ORAL", "EJECUCION",
   "SENTENCIAS", "RESTITUCION", "TIERRAS", "TRANSITO", "ADOLESCENTES",
   "PRIMERO", "SEGUNDO", "TERCERO", "CUARTO", "QUINTO", "SEXTO",
   "SEPTIMO", "OCTAVO", "NOVENO", "DECIMO", "UNDECIMO", "DUODECIMO",
   "DE", "DEL", "EL", "LA", "LOS", "LAS", "Y", "EN"]

/-- Stable insertion of a word into a descending-by-length sorted list:
it goes after every word of greater or equal length, which is exactly
where the (stable) JavaScript `sort((a, b) => b.length - a.length)`
leaves later elements of equal length. -/
def insertByLenDesc (x : String) : List String → List String
  | [] => [x]
  | y :: ys => if x.length ≤ y.length then y :: insertByLenDesc x ys else x :: y :: ys

/-- `KEYWORDS.sort((a, b) => b.length - a.length)`: the unique permutation
of `KEYWORDS` sorted by descending length keeping equal-length words in
source order (JS `Array.prototype.sort` is stable). -/
def sortedKeywords : List String :=
  KEYWORDS.foldl (fun acc w => insertByLenDesc w acc) []

/-- One step of the reconstructor's keyword loop: keywords longer than 3
characters are globally replaced by themselves padded with one space on
each side; shorter keywords are skipped. -/
def kwStep (acc : List Char) (w : String) : List Char :=
  if 3 < w.length then replaceAll w.data (' ' :: (w.data ++ [' '])) acc else acc

/-- Strategy 2 of the reconstructor, applied to the trimmed raw text:
compress all whitespace away, run the keyword loop over the
length-sorted keyword list, then `replace(/\s+/g, ' ').trim()`. -/
def strat2 (raw : String) : String :=
  jsTrim ⟨collapseWS (sortedKeywords.foldl kwStep (stripWS raw.data))⟩

/-- Strategy 1 of the reconstructor: split the raw text on whitespace runs
of length ≥ 2, strip all internal whitespace from each chunk, join the
chunks with single spaces. -/
def strat1 (raw : String) : String :=
  ⟨List.intercalate [' '] ((splitWs2 raw.data).map stripWS)⟩

/-- `context.replace(/^JDO\.?\s*/, 'JUZGADO ')`. -/
def expandJdo (l : List Char) : List Char :=
  if isPre "JDO".data l then
    let rest := l.drop 3
    let rest := match rest with
      | '.' :: r => r
      | r => r
    "JUZGADO ".data ++ rest.dropWhile isWS
  else l

/-- `context.replace(/^J\.\s*/, 'JUZGADO ')`. -/
def expandJAbbr (l : List Char) : List Char :=
  if isPre "J.".data l then "JUZGADO ".data ++ (l.drop 2).dropWhile isWS
  else l

/-- `/^\d/.test(context)`. -/
def startsWithDigit : List Char → Bool
  | c :: _ => c.isDigit
  | [] => false

/-- The post-processing block of the reconstructor (`NEW LOGIC`):
uppercase, expand the `JDO.`/`J.` abbreviations, and prepend `JUZGADO `
when the label starts with a digit and does not already start with
`JUZGADO`. -/
def postProcess (s : String) : String :=
  let c1 := (jsUpper s).data
  let c2 := expandJAbbr (expandJdo c1)
  let c3 :=
    if startsWithDigit c2 && !isPre "JUZGADO".data c2 then "JUZGADO ".data ++ c2
    else c2
  ⟨c3⟩

/-- The header text reconstructor (lines 120–203 of `page.tsx`): trim the
first cell, try the double-space strategy, else the single-letter-spacing
strategy, else fall back to the trimmed raw text; post-process the result
when it is nonempty (JS `if (currentContext)`). -/
def reconstructHeader (fc : String) : String :=
  let raw := jsTrim fc
  let base : String :=
    if hasSub [' ', ' '] raw.data then strat1 raw
    else if hasSingleLetterWS raw.data || allSingleLetters raw.data then strat2 raw
    else raw
  if base = "" then base else postProcess base

/-- Is the second cell blank in the sense of the header-candidate check
`(!secondCell || secondCell.toString().trim() === '')`? -/
def isBlank2 (c : Cell) : Bool := cellFalsy c || jsTrim (cellToString c) = ""

/-- `firstCell.toString().toUpperCase().replace(/\s+/g, '')`. -/
def normText (s : String) : List Char := stripWS (jsUpper s).data

/-- The two context registers carried across a sheet's rows. -/
structure Ctx where
  org : String
  st : String
deriving DecidableEq, Repr

/-- The four header classification outcomes of the spec's Header Classifier. -/
inductive HeaderClassKind where
  | notHeader
  | orgHeader
  | stHeader
  | ambiguous
deriving DecidableEq, Repr

/-- The header classification the per-row branch structure of `handleSearch`
induces on a row: not a header candidate at all; an organizational/court
header (keyword hit and normalized length > 5, which sets the org
register); a state/date header (state markers and no court keyword, which
sets the state register); or an ambiguous candidate that changes nothing
(including court-keyword rows of normalized length ≤ 5, whose court hit
also suppresses the state branch). -/
def classify (row : List Cell) : HeaderClassKind :=
  match cellAt row 0 with
  | Cell.str s =>
    if s ≠ "" && isBlank2 (cellAt row 1) then
      let text := normText s
      if isCourtHeaderText text && decide (5 < text.length) then HeaderClassKind.orgHeader
      else if isStateText (jsTrim (jsUpper s)).data && !isCourtHeaderText text then
        HeaderClassKind.stHeader
      else HeaderClassKind.ambiguous
    else HeaderClassKind.notHeader
  | _ => HeaderClassKind.notHeader

/-- The effect of one row on the two context registers (the header-detection
half of the row loop of `handleSearch`). -/
def stepRow (ctx : Ctx) (row : List Cell) : Ctx :=
  match cellAt row 0 with
  | Cell.str s =>
    if s ≠ "" && isBlank2 (cellAt row 1) then
      let text := normText s
      let isCourt := isCourtHeaderText text
      let ctx1 :=
        if isCourt && decide (5 < text.length) then { ctx with org := reconstructHeader s }
        else ctx
      let t2 := jsTrim (jsUpper s)
      if isStateText t2.data && !isCourt then { ctx1 with st := t2 } else ctx1
    else ctx
  | _ => ctx

/-- A search result (`SearchResult` of the source): sheet name, 1-based row
index for display, the raw row, the stable identity key
`sheetName + "-" + zeroBasedRowIndex`, and the two context snapshots. -/
structure SResult where
  sheetName : String
  rowIndex : Nat
  data : List Cell
  id : String
  context : String
  stateContext : String
deriving DecidableEq, Repr

/-- `String(cell || '')`: falsy cells (null/absent, empty string, the number
zero) coerce to the empty string; anything else to its `toString`. -/
def cellSearchText (c : Cell) : String :=
  if cellFalsy c then "" else cellToString c

/-- `join(' ')` on character lists. -/
def joinSp : List (List Char) → List Char
  | [] => []
  | [x] => x
  | x :: y :: rest => x ++ ' ' :: joinSp (y :: rest)

/-- `row.map(cell => String(cell || '').toLowerCase()).join(' ')`. -/
def rowSearchString (row : List Cell) : List Char :=
  joinSp (row.map fun c => (jsLower (cellSearchText c)).data)

/-- The result record pushed for a matching row at zero-based index `i`,
carrying the context registers as they stand after that row's own header
processing. -/
def mkResult (sn : String) (i : Nat) (row : List Cell) (ctx : Ctx) : SResult :=
  { sheetName := sn
    rowIndex := i + 1
    data := row
    id := sn ++ "-" ++ toString i
    context := ctx.org
    stateContext := ctx.st }

/-- The row loop of `handleSearch` over one sheet: update the context
registers with `stepRow`, then test the flattened row text against the
(lowercased) term and push a result on a hit.  `i` is the zero-based
index of the first row of `rows`. -/
def processRows (term sn : String) : Nat → Ctx → List (List Cell) → List SResult
  | _, _, [] => []
  | i, ctx, row :: rest =>
    let ctx2 := stepRow ctx row
    if hasSub term.data (rowSearchString row) then
      mkResult sn i row ctx2 :: processRows term sn (i + 1) ctx2 rest
    else processRows term sn (i + 1) ctx2 rest

/-- The same row loop without the search filter: every row enriched with the
context snapshot it would carry if it matched. -/
def enrichRows (sn : String) : Nat → Ctx → List (List Cell) → List SResult
  | _, _, [] => []
  | i, ctx, row :: rest =>
    let ctx2 := stepRow ctx row
    mkResult sn i row ctx2 :: enrichRows sn (i + 1) ctx2 rest

/-- A workbook as the engine consumes it: ordered (sheet name, rows) pairs. -/
abbrev Workbook := List (String × List (List Cell))

/-- The whole search: lowercase the term (the source does not trim it) and
scan every sheet in workbook order, each starting from empty context
registers. -/
def searchWorkbook (searchTerm : String) (wb : Workbook) : List SResult :=
  let term := jsLower searchTerm
  (wb.map fun p => processRows term p.1 0 ⟨"", ""⟩ p.2).flatten

/-- `handleSearch` at the level of the results state: the guard
`if (!workbook || !searchTerm.trim()) return;` leaves the previous
results untouched; otherwise the results are replaced wholesale. -/
def handleSearch (prev : List SResult) (searchTerm : String) (wb : Workbook) : List SResult :=
  if jsTrim searchTerm = "" then prev else searchWorkbook searchTerm wb

/-- The component state `handleSearch` and the selection actions touch:
current results, the has-searched flag, the selection ledger (a JS `Map`
modelled as an insertion-ordered association list with unique keys), and
the error message. -/
structure AppState where
  results : List SResult
  hasSearched : Bool
  selectedItems : List (String × SResult)
  errorMsg : Option String
deriving Repr

/-- `Map.has`. -/
def mapHas (m : List (String × SResult)) (k : String) : Bool := m.any (·.1 = k)

/-- `Map.delete`: drop the entry with the given key. -/
def mapDelete (m : List (String × SResult)) (k : String) : List (String × SResult) :=
  m.filter (·.1 ≠ k)

/-- `Map.set`: replace in place when the key is present, else append
(JS `Map` preserves insertion order). -/
def mapSet (m : List (String × SResult)) (k : String) (v : SResult) :
    List (String × SResult) :=
  if mapHas m k then m.map (fun p => if p.1 = k then (k, v) else p) else m ++ [(k, v)]

/-- `handleSearch` as a state transformer: on a blank term it returns without
touching anything; otherwise it sets `hasSearched` and replaces the
results.  `selectedItems` is deliberately not written (source comment:
selections persist across searches). -/
def doSearch (wb : Workbook) (searchTerm : String) (s : AppState) : AppState :=
  if jsTrim searchTerm = "" then s
  else { s with hasSearched := true, results := searchWorkbook searchTerm wb }

/-- `toggleSelection`: remove the row's entry when present, insert it when
absent, keyed by its stable id. -/
def toggleSelection (r : SResult) (s : AppState) : AppState :=
  { s with
    selectedItems :=
      if mapHas s.selectedItems r.id then mapDelete s.selectedItems r.id
      else mapSet s.selectedItems r.id r }

/-- `toggleSelectAll`: when every visible result is selected, delete exactly
the visible entries; otherwise insert all visible entries. -/
def toggleSelectAll (s : AppState) : AppState :=
  let allSel := !s.results.isEmpty && s.results.all fun r => mapHas s.selectedItems r.id
  { s with
    selectedItems :=
      if allSel then s.results.foldl (fun m r => mapDelete m r.id) s.selectedItems
      else s.results.foldl (fun m r => mapSet m r.id r) s.selectedItems }

/-- `clearSelection`. -/
def clearSelection (s : AppState) : AppState := { s with selectedItems := [] }

/-- `r.data[i] || '-'` as it lands in the report table. -/
def pdfCell (c : Cell) : String := if cellFalsy c then "-" else cellToString c

/-- One report row of `generatePDF`'s `tableData`. -/
def pdfRow (r : SResult) : List String :=
  [(if r.context = "" then "Sin asignar" else r.context),
   (if r.stateContext = "" then "-" else r.stateContext),
   pdfCell (cellAt r.data 0), pdfCell (cellAt r.data 1),
   pdfCell (cellAt r.data 2), pdfCell (cellAt r.data 3), r.sheetName]

/-- `generatePDF`: with an empty ledger it returns before building anything
(no table, no save, no state change); otherwise it projects the selected
rows, in ledger insertion order, into the fixed-column table. -/
def generatePDF (s : AppState) : AppState × Option (List (List String)) :=
  let selectedResults := s.selectedItems.map (·.2)
  if selectedResults.length = 0 then (s, none)
  else (s, some (selectedResults.map pdfRow))

/-- Split on single spaces (used only to exhibit the space-delimited tokens
of a reconstructed label). -/
def splitSp (acc : List Char) : List Char → List (List Char)
  | [] => [acc.reverse]
  | c :: rest =>
    if c = ' ' then acc.reverse :: splitSp [] rest else splitSp (c :: acc) rest

/-- Modelled from the spec's words for comparison (claim C4): cell coercion
in which null/absent becomes the empty string and a number becomes its
decimal text (so the number 0 becomes "0"). -/
def specCellText : Cell → String
  | Cell.str s => s
  | Cell.num n => toString n
  | Cell.null => ""

/-- Modelled from the spec's words for comparison (claim C4): the row
flattened by the spec's coercion, lowercased, joined with single spaces. -/
def specRowText (row : List Cell) : List Char :=
  joinSp (row.map fun c => (jsLower (specCellText c)).data)

/-- Modelled from the spec's words for comparison (claim C4): the spec's
matching predicate — the trimmed, lowercased term is a substring of the
spec-coerced row text. -/
def specMatches (term : String) (row : List Cell) : Bool :=
  hasSub (jsTrim (jsLower term)).data (specRowText row)

/-- The header-candidate shape test of the source
(`firstCell && typeof firstCell === 'string' && (!secondCell ||
secondCell.toString().trim() === '')`): cell 0 is a non-empty string and
cell 1 is falsy or blank after `toString().trim()`. -/
def headerCandidate (row : List Cell) : Bool :=
  match cellAt row 0 with
  | Cell.str s => s ≠ "" && isBlank2 (cellAt row 1)
  | _ => false

/-- `processRows` is `enrichRows` filtered by the search predicate: a row is
output iff the (lowercased) term is a substring of its flattened text. -/
theorem processRows_eq_filter (term sn : String) :
    ∀ (rows : List (List Cell)) (i : Nat) (ctx : Ctx),
      processRows term sn i ctx rows =
        (enrichRows sn i ctx rows).filter
          (fun r => hasSub term.data (rowSearchString r.data)) := by
  intro rows
  induction rows with
  | nil => intro i ctx; rfl
  | cons row rest ih =>
    intro i ctx
    simp only [processRows, enrichRows, List.filter]
    cases h : hasSub term.data (rowSearchString row) with
    | true => simp [mkResult, h, ih]
    | false => simp [mkResult, h, ih]

/-- Every result emitted from rows starting at index `i` has a strictly
larger (1-based) row index. -/
theorem processRows_rowIndex_gt (term sn : String) :
    ∀ (rows : List (List Cell)) (i : Nat) (ctx : Ctx) (r : SResult),
      r ∈ processRows term sn i ctx rows → i < r.rowIndex := by
  intro rows
  induction rows with
  | nil => intro i ctx r hr; simp [processRows] at hr
  | cons row rest ih =>
    intro i ctx r hr
    simp only [processRows] at hr
    split at hr
    · rcases List.mem_cons.mp hr with h | h
      · subst h; exact Nat.lt_succ_self i
      · exact Nat.lt_of_succ_lt (ih (i + 1) _ r h)
    · exact Nat.lt_of_succ_lt (ih (i + 1) _ r hr)

/-- Within one sheet, results come out in strictly increasing row order. -/
theorem processRows_pairwise (term sn : String) :
    ∀ (rows : List (List Cell)) (i : Nat) (ctx : Ctx),
      (processRows term sn i ctx rows).Pairwise
        (fun a b => a.rowIndex < b.rowIndex) := by
  intro rows
  induction rows with
  | nil => intro i ctx; simp [processRows]
  | cons row rest ih =>
    intro i ctx
    simp only [processRows]
    split
    · exact List.Pairwise.cons
        (fun b hb => processRows_rowIndex_gt term sn rest (i + 1) _ b hb)
        (ih (i + 1) _)
    · exact ih (i + 1) _

/-- The enriched entry at position `j` carries the row at position `j`
together with the context registers as they stand after folding `stepRow`
over the rows up to and including it. -/
theorem enrichRows_getElem (sn : String) :
    ∀ (rows : List (List Cell)) (i : Nat) (ctx : Ctx) (j : Nat),
      (enrichRows sn i ctx rows)[j]? =
        (rows[j]?).map
          (fun row => mkResult sn (i + j) row ((rows.take (j + 1)).foldl stepRow ctx)) := by
  intro rows
  induction rows with
  | nil => intro i ctx j; simp [enrichRows]
  | cons row rest ih =>
    intro i ctx j
    cases j with
    | zero => simp [enrichRows, List.take, mkResult]
    | succ j =>
      simp only [enrichRows, List.getElem?_cons_succ, List.take_succ_cons, List.foldl_cons]
      rw [ih (i + 1) (stepRow ctx row) j]
      have : i + (j + 1) = i + 1 + j := by omega
      rw [this]

/-- C1: On the reference sheet
`[Header("JUZGADO SEXTO CIVIL MUNICIPAL"), Data(["001","A","B","C"]),
Header("ESTADO 18 DEL 10 FEBRERO 2026"), Data(["002","D","E","F"])]`
(header rows with a blank second cell), searching a term matched only by
the two data rows enriches the first with org-context
"JUZGADO SEXTO CIVIL MUNICIPAL" and state-context "", and the second
with the same org-context and state-context
"ESTADO 18 DEL 10 FEBRERO 2026". -/
theorem claim_C1_context_propagation :
    handleSearch [] "00"
      [("Hoja1",
        [[Cell.str "JUZGADO SEXTO CIVIL MUNICIPAL"],
         [Cell.str "001", Cell.str "A", Cell.str "B", Cell.str "C"],
         [Cell.str "ESTADO 18 DEL 10 FEBRERO 2026"],
         [Cell.str "002", Cell.str "D", Cell.str "E", Cell.str "F"]])] =
      [{ sheetName := "Hoja1", rowIndex := 2,
         data := [Cell.str "001", Cell.str "A", Cell.str "B", Cell.str "C"],
         id := "Hoja1-1", context := "JUZGADO SEXTO CIVIL MUNICIPAL",
         stateContext := "" },
       { sheetName := "Hoja1", rowIndex := 4,
         data := [Cell.str "002", Cell.str "D", Cell.str "E", Cell.str "F"],
         id := "Hoja1-3", context := "JUZGADO SEXTO CIVIL MUNICIPAL",
         stateContext := "ESTADO 18 DEL 10 FEBRERO 2026" }] := by
  decide

/-- C8: executing any sequence of searches (against any workbook, with any
terms) leaves the selection ledger exactly as it was; only the explicit
selection actions mutate it. -/
theorem claim_C8_ledger_invariance (s : AppState) (wb : Workbook)
    (terms : List String) :
    (terms.foldl (fun st t => doSearch wb t st) s).selectedItems =
      s.selectedItems := by
  induction terms generalizing s with
  | nil => rfl
  | cons t ts ih =>
    rw [List.foldl_cons]
    rw [ih]
    unfold doSearch
    split <;> rfl

/-- C9: invoking the export with an empty selection ledger is a no-op: the
observable state is returned unchanged and no report table is produced. -/
theorem claim_C9_empty_export_noop (s : AppState)
    (h : s.selectedItems = []) : generatePDF s = (s, none) := by
  unfold generatePDF
  rw [h]
  rfl

/-- Witness for C9 at a concrete empty state. -/
theorem claim_C9_witness :
    generatePDF ⟨[], false, [], none⟩ = (⟨[], false, [], none⟩, none) :=
  claim_C9_empty_export_noop ⟨[], false, [], none⟩ rfl

/-- Counterexample to C2 as stated: the row
`["JUZGADO SEGUNDO CIVIL"]` is classified as an organizational header and
matches the term "segundo", yet the result it produces carries its own
freshly assigned context "JUZGADO SEGUNDO CIVIL" — not the context
"JUZGADO PRIMERO CIVIL" that was current before its own header
assignment took effect. -/
theorem claim_C2_counterexample :
    classify [Cell.str "JUZGADO SEGUNDO CIVIL"] = HeaderClassKind.orgHeader ∧
    hasSub "segundo".data (rowSearchString [Cell.str "JUZGADO SEGUNDO CIVIL"]) = true ∧
    (stepRow ⟨"", ""⟩ [Cell.str "JUZGADO PRIMERO CIVIL"]).org = "JUZGADO PRIMERO CIVIL" ∧
    (handleSearch [] "segundo"
        [("S", [[Cell.str "JUZGADO PRIMERO CIVIL"],
                [Cell.str "JUZGADO SEGUNDO CIVIL"]])]).map SResult.context =
      ["JUZGADO SEGUNDO CIVIL"] ∧
    ("JUZGADO SEGUNDO CIVIL" : String) ≠ "JUZGADO PRIMERO CIVIL" := by
  decide

/-- Counterexample to C3 as stated: with `cell[1]` the number 0 — whose
string form "0" is non-blank — the row `["JUZGADO CIVIL", 0]` is still
classified as an organizational header (JS `!secondCell` treats the
falsy 0 as blank) and it does change the organizational register. -/
theorem claim_C3_counterexample :
    jsTrim (cellToString (Cell.num 0)) ≠ "" ∧
    classify [Cell.str "JUZGADO CIVIL", Cell.num 0] = HeaderClassKind.orgHeader ∧
    stepRow ⟨"", ""⟩ [Cell.str "JUZGADO CIVIL", Cell.num 0] =
      ⟨"JUZGADO CIVIL", ""⟩ := by
  decide

/-- Counterexample to C4 as stated, at two concrete inputs: (a) the spec's
coercion makes the number 0 into "0" so the term "0" should match the row
`[0]`, but the code coerces the falsy 0 to "" and outputs nothing;
(b) the spec matches with the *trimmed* term, so "a " should match the
row `["a"]`, but the code matches with the untrimmed lowercased term
"a " and outputs nothing. -/
theorem claim_C4_counterexample :
    (specMatches "0" [Cell.num 0] = true ∧
      handleSearch [] "0" [("S", [[Cell.num 0]])] = []) ∧
    (specMatches "a " [Cell.str "a"] = true ∧
      handleSearch [] "a " [("S", [[Cell.str "a"]])] = []) := by
  decide

/-- Counterexample to C7 as stated: "1 CIVIL MUNICIPAL" contains no run of
two-or-more spaces and no single-letter spacing pattern, so the fallback
strategy applies — yet the reconstructor's post-processing prepends
"JUZGADO ", so the output differs from the input. -/
theorem claim_C7_counterexample :
    hasSub [' ', ' '] "1 CIVIL MUNICIPAL".data = false ∧
    hasSingleLetterWS "1 CIVIL MUNICIPAL".data = false ∧
    allSingleLetters "1 CIVIL MUNICIPAL".data = false ∧
    reconstructHeader "1 CIVIL MUNICIPAL" = "JUZGADO 1 CIVIL MUNICIPAL" ∧
    ("JUZGADO 1 CIVIL MUNICIPAL" : String) ≠ "1 CIVIL MUNICIPAL" := by
  decide

/-- C10: search is deterministic — its output does not depend on the previous
result state — and order-stable: the result list is the concatenation of
the per-sheet result lists in workbook sheet order, and within each sheet
results appear in strictly ascending row order. -/
theorem claim_C10_deterministic_ordered (prev1 prev2 : List SResult)
    (term : String) (wb : Workbook) (h : jsTrim term ≠ "") :
    handleSearch prev1 term wb = handleSearch prev2 term wb ∧
    handleSearch prev1 term wb =
      (wb.map fun p => processRows (jsLower term) p.1 0 ⟨"", ""⟩ p.2).flatten ∧
    ∀ p ∈ wb,
      (processRows (jsLower term) p.1 0 ⟨"", ""⟩ p.2).Pairwise
        (fun a b => a.rowIndex < b.rowIndex) := by
  refine ⟨?_, ?_, ?_⟩
  · unfold handleSearch
    rw [if_neg h, if_neg h]
  · unfold handleSearch
    rw [if_neg h]
    rfl
  · intro p _
    exact processRows_pairwise (jsLower term) p.1 p.2 0 ⟨"", ""⟩

/-- Witness for C10 at a concrete term and workbook. -/
theorem claim_C10_witness :
    handleSearch [] "nancy" [("S", [[Cell.str "Nancy Gómez"]])] =
      handleSearch
        [{ sheetName := "X", rowIndex := 1, data := [], id := "X-0",
           context := "", stateContext := "" }]
        "nancy" [("S", [[Cell.str "Nancy Gómez"]])] ∧
    handleSearch [] "nancy" [("S", [[Cell.str "Nancy Gómez"]])] =
      ([("S", ([[Cell.str "Nancy Gómez"]] : List (List Cell)))].map
        fun p => processRows (jsLower "nancy") p.1 0 ⟨"", ""⟩ p.2).flatten ∧
    ∀ p ∈ ([("S", [[Cell.str "Nancy Gómez"]])] : Workbook),
      (processRows (jsLower "nancy") p.1 0 ⟨"", ""⟩ p.2).Pairwise
        (fun a b => a.rowIndex < b.rowIndex) :=
  claim_C10_deterministic_ordered
    []
    [{ sheetName := "X", rowIndex := 1, data := [], id := "X-0",
       context := "", stateContext := "" }]
    "nancy" [("S", [[Cell.str "Nancy Gómez"]])] (by decide)

/-- C2 (amended): a row classified as a header whose flattened text contains
the term appears in the results carrying the context registers as they
stand *after* that row's own header assignment took effect — the fold of
`stepRow` over the rows up to and including the row itself. -/
theorem claim_C2_post_update_context (term sn : String) (rows : List (List Cell))
    (j : Nat) (row : List Cell) (hrow : rows[j]? = some row)
    (_hhdr : classify row = HeaderClassKind.orgHeader ∨
      classify row = HeaderClassKind.stHeader)
    (hmatch : hasSub term.data (rowSearchString row) = true) :
    mkResult sn j row ((rows.take (j + 1)).foldl stepRow ⟨"", ""⟩) ∈
        processRows term sn 0 ⟨"", ""⟩ rows ∧
    (rows.take (j + 1)).foldl stepRow ⟨"", ""⟩ =
      stepRow ((rows.take j).foldl stepRow ⟨"", ""⟩) row := by
  constructor
  · rw [processRows_eq_filter]
    rw [List.mem_filter]
    constructor
    · have h := enrichRows_getElem sn rows 0 ⟨"", ""⟩ j
      rw [hrow] at h
      rw [Nat.zero_add] at h
      exact List.getElem?_mem h
    · simpa [mkResult] using hmatch
  · rw [List.take_succ, hrow]
    simp

/-- Witness for C2 at a concrete one-row sheet whose single row is an
organizational header matching the term. -/
theorem claim_C2_witness :
    mkResult "S" 0 [Cell.str "JUZGADO PRIMERO CIVIL"]
        (([[Cell.str "JUZGADO PRIMERO CIVIL"]].take 1).foldl stepRow ⟨"", ""⟩) ∈
      processRows "juzgado" "S" 0 ⟨"", ""⟩ [[Cell.str "JUZGADO PRIMERO CIVIL"]] ∧
    (([[Cell.str "JUZGADO PRIMERO CIVIL"]].take 1).foldl stepRow ⟨"", ""⟩) =
      stepRow (([[Cell.str "JUZGADO PRIMERO CIVIL"]].take 0).foldl stepRow ⟨"", ""⟩)
        [Cell.str "JUZGADO PRIMERO CIVIL"] :=
  claim_C2_post_update_context "juzgado" "S" [[Cell.str "JUZGADO PRIMERO CIVIL"]]
    0 [Cell.str "JUZGADO PRIMERO CIVIL"] rfl (Or.inl (by decide)) (by decide)

/-- C4 (amended): for a term that is non-empty after trimming, a row is
output iff the *lowercased but untrimmed* term is a substring of the
string built by coercing every cell to text with `String(cell || '')` —
so falsy cells (null/absent, the empty string, and the number 0) become
the empty string, other numbers their decimal text — lowercasing, and
joining with single spaces; matching is case-insensitive across all
columns. -/
theorem claim_C4_search_matcher (prev : List SResult) (term : String)
    (wb : Workbook) (h : jsTrim term ≠ "") :
    handleSearch prev term wb =
      (wb.map fun p =>
        (enrichRows p.1 0 ⟨"", ""⟩ p.2).filter
          (fun r => hasSub (jsLower term).data (rowSearchString r.data))).flatten := by
  unfold handleSearch
  rw [if_neg h]
  show (wb.map fun p => processRows (jsLower term) p.1 0 ⟨"", ""⟩ p.2).flatten = _
  simp only [processRows_eq_filter]

/-- Witness for C4: the matcher at a concrete workbook and term; the value
"Nancy Gómez" in the second column matches the term "nancy". -/
theorem claim_C4_witness :
    handleSearch [] "nancy"
        [("S", [[Cell.str "001", Cell.str "Nancy Gómez"]])] =
      (([("S", [[Cell.str "001", Cell.str "Nancy Gómez"]])] : Workbook).map
        fun p =>
          (enrichRows p.1 0 ⟨"", ""⟩ p.2).filter
            (fun r => hasSub (jsLower "nancy").data (rowSearchString r.data))).flatten :=
  claim_C4_search_matcher [] "nancy"
    [("S", [[Cell.str "001", Cell.str "Nancy Gómez"]])] (by decide)

/-- C3 (amended): a row is a header candidate only if cell 0 is a non-empty
string and cell 1 is falsy (null/absent, empty string, the number 0) or
blank after `toString().trim()`; for every row whose cell 1 is truthy and
whose string form is non-blank, the row is never classified as a header
and neither context register is changed by it. -/
theorem claim_C3_header_candidate_shape (row : List Cell) (ctx : Ctx) :
    (classify row ≠ HeaderClassKind.notHeader → headerCandidate row = true) ∧
    (cellFalsy (cellAt row 1) = false →
      jsTrim (cellToString (cellAt row 1)) ≠ "" →
      classify row = HeaderClassKind.notHeader ∧ stepRow ctx row = ctx) := by
  constructor
  · intro hne
    unfold classify at hne
    unfold headerCandidate
    cases h0 : cellAt row 0 with
    | str s =>
      rw [h0] at hne
      simp at hne
      simp [hne.1, hne.2.1]
    | num n => rw [h0] at hne; simp at hne
    | null => rw [h0] at hne; simp at hne
  · intro h1 h2
    have hbf : isBlank2 (cellAt row 1) = false := by
      unfold isBlank2
      rw [h1]
      simp [h2]
    unfold classify stepRow
    cases h0 : cellAt row 0 with
    | str s => simp [hbf]
    | num n => simp
    | null => simp

/-- Witness for C3: a header-shaped row is a candidate, and a row whose
second cell is the truthy, non-blank string "X" is not a header and
leaves concrete context registers untouched. -/
theorem claim_C3_witness :
    headerCandidate [Cell.str "JUZGADO CIVIL"] = true ∧
    (classify [Cell.str "JUZGADO CIVIL", Cell.str "X"] = HeaderClassKind.notHeader ∧
      stepRow ⟨"A", "B"⟩ [Cell.str "JUZGADO CIVIL", Cell.str "X"] = ⟨"A", "B"⟩) :=
  ⟨(claim_C3_header_candidate_shape [Cell.str "JUZGADO CIVIL"] ⟨"", ""⟩).1 (by decide),
   (claim_C3_header_candidate_shape [Cell.str "JUZGADO CIVIL", Cell.str "X"]
     ⟨"A", "B"⟩).2 (by decide) (by decide)⟩

/-- C5: frame effects of one row on the registers — an organizational header
never touches the state register (the court-keyword hit suppresses the
state branch on the same row), a state header never touches the
organizational register, and rows classified `notHeader` or `ambiguous`
change neither. -/
theorem claim_C5_frame_effects (row : List Cell) (ctx : Ctx) :
    (classify row = HeaderClassKind.orgHeader → (stepRow ctx row).st = ctx.st) ∧
    (classify row = HeaderClassKind.stHeader → (stepRow ctx row).org = ctx.org) ∧
    ((classify row = HeaderClassKind.notHeader ∨
        classify row = HeaderClassKind.ambiguous) → stepRow ctx row = ctx) := by
  unfold classify stepRow
  cases h0 : cellAt row 0 with
  | str s =>
    by_cases hg : (decide (s ≠ "") && isBlank2 (cellAt row 1)) = true
    · simp only [hg, if_true]
      by_cases hcourt : isCourtHeaderText (normText s) = true
      · by_cases hlen : decide (5 < (normText s).length) = true
        · simp [hcourt, hlen]
        · simp [hcourt, hlen]
      · by_cases hstate : isStateText (jsTrim (jsUpper s)).data = true
        · simp [hcourt, hstate]
        · simp [hcourt, hstate]
    · rw [Bool.not_eq_true] at hg
      have hg2 : ¬(¬s = "" ∧ isBlank2 (cellAt row 1) = true) := by simpa using hg
      simp [hg2]
  | num n => simp
  | null => simp

/-- Witness for C5 at concrete rows of each kind. -/
theorem claim_C5_witness :
    (stepRow ⟨"A", "B"⟩ [Cell.str "JUZGADO PRIMERO CIVIL"]).st = "B" ∧
    (stepRow ⟨"A", "B"⟩ [Cell.str "ESTADO 18 DEL 10 FEBRERO 2026"]).org = "A" ∧
    stepRow ⟨"A", "B"⟩ [Cell.str "001", Cell.str "X"] = ⟨"A", "B"⟩ :=
  ⟨(claim_C5_frame_effects [Cell.str "JUZGADO PRIMERO CIVIL"] ⟨"A", "B"⟩).1
     (by decide),
   (claim_C5_frame_effects [Cell.str "ESTADO 18 DEL 10 FEBRERO 2026"]
     ⟨"A", "B"⟩).2.1 (by decide),
   (claim_C5_frame_effects [Cell.str "001", Cell.str "X"] ⟨"A", "B"⟩).2.2
     (Or.inl (by decide))⟩

/-- C6: when the single-letter-spaced strategy applies (no double space, a
single-letter spacing pattern), the reconstructor is exactly: compress
all whitespace away, fold the keyword replacement over the fixed list
sorted by descending length, collapse space runs and trim, then
post-process; keywords of length ≤ 3 are never reinserted; and on
"S E X T O D E F A M I L I A" the result is "SEXTO DE FAMILIA", in
which "SEXTO" and "FAMILIA" are separate space-delimited tokens. -/
theorem claim_C6_single_letter_reconstruction :
    (∀ raw : String,
        hasSub [' ', ' '] (jsTrim raw).data = false →
        (hasSingleLetterWS (jsTrim raw).data || allSingleLetters (jsTrim raw).data)
          = true →
        reconstructHeader raw =
          (if strat2 (jsTrim raw) = "" then strat2 (jsTrim raw)
            else postProcess (strat2 (jsTrim raw)))) ∧
    (∀ (acc : List Char) (w : String), w.length ≤ 3 → kwStep acc w = acc) ∧
    List.Pairwise (fun a b => b.length ≤ a.length) sortedKeywords ∧
    reconstructHeader "S E X T O D E F A M I L I A" = "SEXTO DE FAMILIA" ∧
    splitSp [] ("SEXTO DE FAMILIA".data) =
      ["SEXTO".data, "DE".data, "FAMILIA".data] := by
  refine ⟨?_, ?_, by decide, by decide, by decide⟩
  · intro raw h1 h2
    simp only [reconstructHeader, h1, h2, Bool.false_eq_true, if_false, if_true]
  · intro acc w hw
    unfold kwStep
    rw [if_neg (by omega)]

/-- Witness for C6: the strategy-2 routing at the concrete single-letter
input, and the skipped short keyword "DE". -/
theorem claim_C6_witness :
    reconstructHeader "S E X T O D E F A M I L I A" =
      (if strat2 (jsTrim "S E X T O D E F A M I L I A") = "" then
        strat2 (jsTrim "S E X T O D E F A M I L I A")
        else postProcess (strat2 (jsTrim "S E X T O D E F A M I L I A"))) ∧
    kwStep [] "DE" = [] :=
  ⟨claim_C6_single_letter_reconstruction.1 "S E X T O D E F A M I L I A"
     (by decide) (by decide),
   claim_C6_single_letter_reconstruction.2.1 [] "DE" (by decide)⟩

/-- C7 (amended): the reconstructor is the identity on already-clean labels
that in addition are fixed by uppercasing, do not start with the
"JDO"/"J." abbreviation patterns, and do not start with a digit (the
post-processing rewrites labels violating any of those). -/
theorem claim_C7_reconstructor_identity (l : String)
    (htrim : jsTrim l = l)
    (h1 : hasSub [' ', ' '] l.data = false)
    (h2 : hasSingleLetterWS l.data = false)
    (h3 : allSingleLetters l.data = false)
    (hup : jsUpper l = l)
    (hjdo : isPre "JDO".data l.data = false)
    (hjab : isPre "J.".data l.data = false)
    (hd : startsWithDigit l.data = false) :
    reconstructHeader l = l := by
  simp only [reconstructHeader, htrim, h1, h2, h3, Bool.or_self,
    Bool.false_eq_true, if_false]
  by_cases hl : l = ""
  · simp [hl]
  · rw [if_neg hl]
    unfold postProcess
    rw [hup]
    unfold expandJdo expandJAbbr
    simp only [hjdo, hjab, Bool.false_eq_true, if_false]
    simp only [hd, Bool.false_and, if_false]
    rfl

/-- Witness for C7 at a concrete clean, uppercase, non-abbreviated label. -/
theorem claim_C7_witness :
    reconstructHeader "JUZGADO CIVIL MUNICIPAL" = "JUZGADO CIVIL MUNICIPAL" :=
  claim_C7_reconstructor_identity "JUZGADO CIVIL MUNICIPAL" (by decide)
    (by decide) (by decide) (by decide) (by decide) (by decide) (by decide)
    (by decide)
